import Mathlib

/-!
Verification of the ESP8266 dusk-to-dawn controller (src/src/main.cpp)
against its natural-language specification.

The embedding below translates the decision logic of main.cpp into Lean:

* `isDark` embeds the function `isDark` (main.cpp lines 114-123); the
  globals `sunrise_time`, `sunset_time` and the call `time(nullptr)`
  become explicit parameters of type `Int` (C `time_t`).
* `fadeUpLoop` / `fadeDownLoop` / `fadeToBrightness` embed
  `fadeToBrightness` (lines 125-141).  The mutable global
  `current_pwm_duty` becomes an explicit argument and result; the calls
  `analogWrite(LED_MOSFET_PIN, current_pwm_duty)` become a returned list
  of written duty values, in order.
* `handleButtonPress` embeds the interrupt handler (lines 70-77), with
  the `static unsigned long last_interrupt_time` and the volatile flags
  lifted into the explicit system state; `millis()` becomes a `Nat`
  argument and the C unsigned 32-bit subtraction is modelled modulo 2^32.
* `calcSunriseSunset` embeds lines 148-174.  The SunSet library results
  (`sun.calcSunrise()` / `sun.calcSunset()`, C doubles) are inputs of
  type `ℚ`; `mktime` applied to a `struct tm` copied from today with
  overwritten hour/minute/second fields is modelled as
  `midnight + 3600 * tm_hour + 60 * tm_min`, which is exactly the mktime
  field normalisation for the local day starting at `midnight`.
* `loopStep` embeds one iteration of `loop()` (lines 176-236) in the
  `ENABLE_BUTTON_OVERRIDE` configuration, which contains the plain
  variant as the `led_override = false` case.  Each iteration returns
  the successor state together with an observation trace recording the
  override-block writes, whether `calcSunriseSunset` ran, the writes of
  the automatic day/night fade (`none` when the NTP gate returned
  early), and the argument of the final `delay`.
-/

set_option maxRecDepth 100000

/-- Constant `LED_PWM_DUTY` from main.cpp line 36: 75 percent brightness. -/
def LED_PWM_DUTY : Int := 192

/-- Embedding of `isDark` (main.cpp lines 114-123): returns `false` iff
`sunrise_time <= tnow < sunset_time`, `true` otherwise. -/
def isDark (tnow sunrise_time sunset_time : Int) : Bool :=
  if tnow ≥ sunrise_time ∧ tnow < sunset_time then false else true

/-- Embedding of the fade-up loop of `fadeToBrightness` (main.cpp lines
128-132): `while (current_pwm_duty <= targetBrightness) writes the
current duty, then increments`.  Returns the list of written values and
the final value of `current_pwm_duty`. -/
def fadeUpLoop (current_pwm_duty targetBrightness : Int) : List Int × Int :=
  if h : current_pwm_duty ≤ targetBrightness then
    let r := fadeUpLoop (current_pwm_duty + 1) targetBrightness
    (current_pwm_duty :: r.1, r.2)
  else
    ([], current_pwm_duty)
termination_by (targetBrightness + 1 - current_pwm_duty).toNat
decreasing_by
  simp_wf
  omega

/-- Embedding of the fade-down loop of `fadeToBrightness` (main.cpp lines
135-139): `while (current_pwm_duty >= targetBrightness) writes the
current duty, then decrements`. -/
def fadeDownLoop (current_pwm_duty targetBrightness : Int) : List Int × Int :=
  if h : targetBrightness ≤ current_pwm_duty then
    let r := fadeDownLoop (current_pwm_duty - 1) targetBrightness
    (current_pwm_duty :: r.1, r.2)
  else
    ([], current_pwm_duty)
termination_by (current_pwm_duty + 1 - targetBrightness).toNat
decreasing_by
  simp_wf
  omega

/-- Embedding of `fadeToBrightness` (main.cpp lines 125-141).  The global
`current_pwm_duty` is the first argument; the result is the list of duty
values passed to `analogWrite` and the final `current_pwm_duty`.  The
`stepDelay` argument only controls the blocking `delay` between writes
and does not affect the written values. -/
def fadeToBrightness (current_pwm_duty targetBrightness : Int)
    (stepDelay : Nat) : List Int × Int :=
  if current_pwm_duty < targetBrightness then
    fadeUpLoop current_pwm_duty targetBrightness
  else if targetBrightness < current_pwm_duty then
    fadeDownLoop current_pwm_duty targetBrightness
  else
    ([], current_pwm_duty)

/-- Modulus of the C `unsigned long` (32-bit on the ESP8266) used by
`millis()` and the debounce arithmetic. -/
def U32 : Nat := 4294967296

/-- Mutable program state of main.cpp: the volatile override flags
(lines 33-34), the stored duty (line 52), the computed solar instants
(lines 49-50), the `static` NTP gate flag of `loop` (line 193) and the
`static` debounce timestamp of `handleButtonPress` (line 71).
`led_state` is a C `int` that only ever holds 0 or 1, modelled as
`Bool`. -/
structure SysState where
  led_override : Bool
  led_state : Bool
  current_pwm_duty : Int
  sunrise_time : Int
  sunset_time : Int
  time_initialized : Bool
  last_interrupt_time : Nat
deriving DecidableEq

/-- State at program start: globals zero-initialised, `analogWrite(pin, 0)`
issued by `setup` (line 88), statics at their initialisers. -/
def initState : SysState :=
  { led_override := false
    led_state := false
    current_pwm_duty := 0
    sunrise_time := 0
    sunset_time := 0
    time_initialized := false
    last_interrupt_time := 0 }

/-- Embedding of the interrupt handler `handleButtonPress` (main.cpp
lines 70-77): reads `millis()` (the argument `interrupt_time`, a value
below 2^32), toggles `led_override` when the unsigned difference to
`last_interrupt_time` exceeds 200, and unconditionally stores the new
timestamp.  It touches no other field and issues no output write. -/
def handleButtonPress (s : SysState) (interrupt_time : Nat) : SysState :=
  let diff := (interrupt_time + U32 - s.last_interrupt_time) % U32
  let s1 := if 200 < diff then { s with led_override := !s.led_override } else s
  { s1 with last_interrupt_time := interrupt_time }

/-- Folds a sequence of button edges (their `millis()` timestamps)
through the interrupt handler. -/
def runPresses (s : SysState) (edges : List Nat) : SysState :=
  edges.foldl handleButtonPress s

/-- Debounce machine written from the words of the claim, for comparison
with the code: state is (override flag, timestamp of the last ACCEPTED
edge); an edge at least 200 ms after the last accepted edge toggles and
becomes the new reference, an edge within 200 ms is ignored entirely. -/
def claimDebounce (st : Bool × Nat) (t : Nat) : Bool × Nat :=
  if 200 ≤ (t + U32 - st.2) % U32 then (!st.1, t) else st

/-- Runs the claim-semantics debounce machine over a list of edges. -/
def claimDebounceRun (st : Bool × Nat) (edges : List Nat) : Bool × Nat :=
  edges.foldl claimDebounce st


/-- Truncation toward zero of a rational, the C conversion from `double`
to `int` applied in `calcSunriseSunset` (main.cpp lines 164-165 and
170-171). -/
def ctrunc (q : ℚ) : Int := q.num.tdiv (q.den : Int)

/-- The C expression `(int)(minutes / 60)` of main.cpp lines 164 and 170:
truncation toward zero of the exact quotient `q / 60`, computed on the
numerator and denominator directly (the denominator of a rational is
positive, so `tdiv` by `60 * den` is exactly the truncation of
`q / 60`). -/
def ctruncDiv60 (q : ℚ) : Int := q.num.tdiv (60 * (q.den : Int))

/-- Inputs one `loop` iteration reads from the outside world: the
`time(nullptr)` value, the broken-down local date delivered by
`localtime` (its year, the epoch instant of local midnight of that day,
and the `tm_isdst` flag), and the two minute-of-day results the SunSet
library returns for that date (`sun.calcSunrise()` / `sun.calcSunset()`,
C doubles, modelled as rationals). -/
structure TimeInput where
  tnow : Int
  year : Int
  midnight : Int
  isdst : Bool
  sunrise_minutes : ℚ
  sunset_minutes : ℚ
deriving DecidableEq

/-- Embedding of `calcSunriseSunset` (main.cpp lines 148-174): converts
the library minute-of-day values into `time_t` instants for today by
writing `tm_hour = sunrise_minutes / 60` (C double-to-int truncation),
`tm_min = (int) sunrise_minutes % 60` (C truncated remainder),
`tm_sec = 0` into a copy of the current `struct tm` and calling
`mktime`, which normalises the fields: the result is local midnight plus
3600 times the hour field plus 60 times the minute field.  No range or
finiteness check is applied to the minute values.  Returns the pair
(new `sunrise_time`, new `sunset_time`). -/
def calcSunriseSunset (inp : TimeInput) : Int × Int :=
  (inp.midnight + 3600 * ctruncDiv60 inp.sunrise_minutes
     + 60 * (ctrunc inp.sunrise_minutes).tmod 60,
   inp.midnight + 3600 * ctruncDiv60 inp.sunset_minutes
     + 60 * (ctrunc inp.sunset_minutes).tmod 60)

/-- Observation trace of one `loop` iteration: the duty values written by
the override block (lines 179-190), whether `calcSunriseSunset` was
invoked, the duty values written by the automatic day/night fade (`none`
when the NTP gate returned early at line 202), and the argument of the
closing `delay`. -/
structure IterTrace where
  overrideWrites : List Int
  calcRan : Bool
  autoWrites : Option (List Int)
  delayMs : Nat
deriving DecidableEq

/-- Trace of an iteration that waits for NTP time: nothing written, no
calculation, `delay(1000)`. -/
def idleTrace : IterTrace :=
  { overrideWrites := [], calcRan := false, autoWrites := none, delayMs := 1000 }

/-- Embedding of one iteration of `loop` (main.cpp lines 176-236) with
`ENABLE_BUTTON_OVERRIDE` defined; the plain variant is the
`led_override = false` special case.  In order: the override block
(lines 177-191), the NTP year gate with its early return (lines
193-205, note that `time_initialized` is never assigned), the solar
recomputation (line 207) and the automatic day/night fade (lines
226-233). -/
def loopStep (s : SysState) (inp : TimeInput) : SysState × IterTrace :=
  let dark0 := isDark inp.tnow s.sunrise_time s.sunset_time
  let s1 :=
    if s.led_override then
      if !dark0 && !s.led_state then
        { s with
          current_pwm_duty := (fadeToBrightness s.current_pwm_duty LED_PWM_DUTY 20).2,
          led_state := true }
      else if dark0 && s.led_state then
        { s with
          current_pwm_duty := (fadeToBrightness s.current_pwm_duty 0 20).2,
          led_state := false }
      else s
    else s
  let overrideWrites :=
    if s.led_override then
      if !dark0 && !s.led_state then
        (fadeToBrightness s.current_pwm_duty LED_PWM_DUTY 20).1
      else if dark0 && s.led_state then
        (fadeToBrightness s.current_pwm_duty 0 20).1
      else []
    else []
  if s1.time_initialized = false ∧ inp.year < 2020 then
    (s1, { overrideWrites := overrideWrites, calcRan := false,
           autoWrites := none, delayMs := 1000 })
  else
    let c := calcSunriseSunset inp
    let s2 := { s1 with sunrise_time := c.1, sunset_time := c.2 }
    let fr :=
      if isDark inp.tnow s2.sunrise_time s2.sunset_time then
        fadeToBrightness s2.current_pwm_duty LED_PWM_DUTY 20
      else
        fadeToBrightness s2.current_pwm_duty 0 20
    ({ s2 with current_pwm_duty := fr.2 },
     { overrideWrites := overrideWrites, calcRan := true,
       autoWrites := some fr.1, delayMs := 60000 })

/-- Runs `loop` over a list of per-iteration inputs, collecting the
iteration traces. -/
def runLoop (s : SysState) : List TimeInput → SysState × List IterTrace
  | [] => (s, [])
  | inp :: rest =>
    let r := loopStep s inp
    let rr := runLoop r.1 rest
    (rr.1, r.2 :: rr.2)

/-- A state of the initial AwaitingTime prefix: the solar instants still
hold their zero initialisers, no override toggle state has been latched,
and the NTP gate flag is still false.  `initState` satisfies this, and
any number of button presses or sub-2020 iterations preserve it. -/
def AwaitingStart (s : SysState) : Prop :=
  s.sunrise_time = 0 ∧ s.sunset_time = 0 ∧ s.led_state = false
    ∧ s.time_initialized = false

/-- A reachable Running-phase state for a summer day (sunrise 05:31,
sunset 20:49 local, instants relative to local midnight 0) with the
override flag latched on by a button press at 300 ms. -/
def runningDayState : SysState :=
  { led_override := true, led_state := false, current_pwm_duty := 0,
    sunrise_time := 19860, sunset_time := 74940, time_initialized := false,
    last_interrupt_time := 300 }

/-- The same Running-phase state after the override block has latched the
LEDs on (`led_state = 1`). -/
def overrideOnState : SysState :=
  { runningDayState with led_state := true }

/-- Iteration input at local noon of a synchronised 2024 day. -/
def noonInput : TimeInput :=
  { tnow := 43200, year := 2024, midnight := 0, isdst := false,
    sunrise_minutes := 331, sunset_minutes := 1249 }

/-- Iteration input before dawn of a synchronised 2024 day. -/
def nightInput : TimeInput :=
  { noonInput with tnow := 5000 }

/-- Iteration input after the clock regressed below the year-2020 gate
while the stored solar instants still stem from a synchronised day. -/
def regressNightInput : TimeInput :=
  { noonInput with tnow := 5000, year := 1970 }

/-- Iteration input of a first synchronised tick (noon, year 2024, local
midnight at epoch second 1000000). -/
def syncInput : TimeInput :=
  { tnow := 1043200, year := 2024, midnight := 1000000, isdst := true,
    sunrise_minutes := 331, sunset_minutes := 1249 }

/-- Iteration input whose clock reports 1970 again after a successful
synchronised tick. -/
def regressInput : TimeInput :=
  { tnow := 50000, year := 1970, midnight := 0, isdst := false,
    sunrise_minutes := 331, sunset_minutes := 1249 }

/-- Iteration input for which the SunSet library returned a sunset
minute-of-day of 2000, outside [0, 1440). -/
def badSunsetInput : TimeInput :=
  { tnow := 0, year := 2024, midnight := 0, isdst := false,
    sunrise_minutes := 331, sunset_minutes := 2000 }

/-- Iteration input for which the SunSet library returned a negative
sunrise minute-of-day. -/
def negSunriseInput : TimeInput :=
  { badSunsetInput with sunrise_minutes := -90, sunset_minutes := 1249 }

/-- Closed form of the fade-up loop, by induction on the distance to the
target: starting at `c ≤ t` it writes `c, c+1, ..., t` and leaves the
duty at `t + 1` (one past the target, because the loop condition is
`<=` and the increment happens after the write). -/
theorem fadeUpLoop_eq_aux (n : Nat) : ∀ c t : Int, c ≤ t →
    (t + 1 - c).toNat = n →
    fadeUpLoop c t = (((List.range n).map (fun i : Nat => c + (i : Int))), t + 1) := by
  induction n with
  | zero =>
    intro c t h hn
    exact absurd hn (by omega)
  | succ n ih =>
    intro c t h hn
    rw [fadeUpLoop, dif_pos h]
    by_cases h2 : c + 1 ≤ t
    · rw [ih (c + 1) t h2 (by omega)]
      rw [Prod.ext_iff]
      refine ⟨?_, rfl⟩
      rw [List.range_succ_eq_map, List.map_cons, List.map_map]
      simp only [Nat.cast_zero, add_zero, List.cons.injEq, true_and]
      refine List.map_congr_left ?_
      intro i _
      simp only [Function.comp_apply, Nat.succ_eq_add_one]
      push_cast
      ring
    · have hc : c = t := by omega
      subst hc
      have hn0 : n = 0 := by omega
      subst hn0
      rw [fadeUpLoop, dif_neg (by omega)]
      simp [List.range_succ]

/-- Closed form of `fadeUpLoop` for a start at or below the target. -/
theorem fadeUpLoop_of_le (c t : Int) (h : c ≤ t) :
    fadeUpLoop c t =
      (((List.range (t + 1 - c).toNat).map (fun i : Nat => c + (i : Int))), t + 1) :=
  fadeUpLoop_eq_aux (t + 1 - c).toNat c t h rfl

/-- Closed form of the fade-down loop: starting at `c ≥ t` it writes
`c, c-1, ..., t` and leaves the duty at `t - 1` (one past the target). -/
theorem fadeDownLoop_eq_aux (n : Nat) : ∀ c t : Int, t ≤ c →
    (c + 1 - t).toNat = n →
    fadeDownLoop c t = (((List.range n).map (fun i : Nat => c - (i : Int))), t - 1) := by
  induction n with
  | zero =>
    intro c t h hn
    exact absurd hn (by omega)
  | succ n ih =>
    intro c t h hn
    rw [fadeDownLoop, dif_pos h]
    by_cases h2 : t ≤ c - 1
    · rw [ih (c - 1) t h2 (by omega)]
      rw [Prod.ext_iff]
      refine ⟨?_, rfl⟩
      rw [List.range_succ_eq_map, List.map_cons, List.map_map]
      simp only [Nat.cast_zero, sub_zero, List.cons.injEq, true_and]
      refine List.map_congr_left ?_
      intro i _
      simp only [Function.comp_apply, Nat.succ_eq_add_one]
      push_cast
      ring
    · have hc : c = t := by omega
      subst hc
      have hn0 : n = 0 := by omega
      subst hn0
      rw [fadeDownLoop, dif_neg (by omega)]
      simp [List.range_succ]

/-- Closed form of `fadeDownLoop` for a start at or above the target. -/
theorem fadeDownLoop_of_ge (c t : Int) (h : t ≤ c) :
    fadeDownLoop c t =
      (((List.range (c + 1 - t).toNat).map (fun i : Nat => c - (i : Int))), t - 1) :=
  fadeDownLoop_eq_aux (c + 1 - t).toNat c t h rfl

/-- C3: for every instant `now` and computed instants `sunrise_time` and
`sunset_time` (with sunrise before sunset), `isDark` returns `false` iff
`sunrise_time ≤ now < sunset_time`; in particular it is `false` exactly at
sunrise, `true` exactly at sunset, `true` one second before sunrise and
`false` one second before sunset. -/
theorem isDark_halfopen_interval (sunrise_time sunset_time : Int)
    (h : sunrise_time < sunset_time) :
    (∀ tnow : Int, isDark tnow sunrise_time sunset_time = false ↔
        sunrise_time ≤ tnow ∧ tnow < sunset_time)
    ∧ isDark sunrise_time sunrise_time sunset_time = false
    ∧ isDark sunset_time sunrise_time sunset_time = true
    ∧ isDark (sunrise_time - 1) sunrise_time sunset_time = true
    ∧ isDark (sunset_time - 1) sunrise_time sunset_time = false := by
  have key : ∀ tnow : Int, isDark tnow sunrise_time sunset_time = false ↔
      sunrise_time ≤ tnow ∧ tnow < sunset_time := by
    intro tnow
    simp only [isDark]
    split_ifs with hc
    · simpa using hc
    · simpa using hc
  refine ⟨key, ?_, ?_, ?_, ?_⟩
  · exact (key sunrise_time).mpr ⟨le_refl _, h⟩
  · rcases Bool.eq_false_or_eq_true (isDark sunset_time sunrise_time sunset_time) with hb | hb
    · exact hb
    · exact absurd ((key sunset_time).mp hb).2 (by omega)
  · rcases Bool.eq_false_or_eq_true
        (isDark (sunrise_time - 1) sunrise_time sunset_time) with hb | hb
    · exact hb
    · exact absurd ((key _).mp hb).1 (by omega)
  · exact (key _).mpr ⟨by omega, by omega⟩

/-- Witness for C3 at the concrete interval [100, 200). -/
theorem isDark_halfopen_interval_witness :
    isDark 100 100 200 = false ∧ isDark 200 100 200 = true :=
  ⟨(isDark_halfopen_interval 100 200 (by decide)).2.1,
   (isDark_halfopen_interval 100 200 (by decide)).2.2.1⟩

/-- C8: when `current_pwm_duty` already equals the target,
`fadeToBrightness` takes neither branch: it issues no physical writes and
leaves the duty unchanged. -/
theorem fadeToBrightness_idempotent (x : Int) (stepDelay : Nat) :
    fadeToBrightness x x stepDelay = ([], x) := by
  simp [fadeToBrightness]

/-- C1 fails on the code: from duty 0, `fadeToBrightness(192, 20)` issues
193 writes (the values 0..192, including the starting value 0) and
terminates with `current_pwm_duty = 193`, not 192; symmetrically, fading
down from 192 to 0 terminates with `current_pwm_duty = -1`.  The loop
conditions `<=` / `>=` together with the post-write increment overshoot
the target by one in both directions. -/
theorem fadeToBrightness_overshoot_bug :
    (fadeToBrightness 0 192 20).1 = (List.range 193).map (fun i : Nat => (i : Int))
    ∧ (fadeToBrightness 0 192 20).1.length = 193
    ∧ (fadeToBrightness 0 192 20).2 = 193
    ∧ (fadeToBrightness 192 0 20).2 = -1 := by
  have h1 : fadeToBrightness 0 192 20 = fadeUpLoop 0 192 := by
    norm_num [fadeToBrightness]
  have h2 : fadeToBrightness 192 0 20 = fadeDownLoop 192 0 := by
    norm_num [fadeToBrightness]
  rw [h1, h2, fadeUpLoop_of_le 0 192 (by norm_num),
    fadeDownLoop_of_ge 192 0 (by norm_num)]
  decide

/-- C2 fails on the code: with every requested target inside [0, 192]
(the loop only ever requests `LED_PWM_DUTY` and 0), the stored duty
reaches 193 after one dark tick from the initial duty 0, the next fade
toward `LED_PWM_DUTY` passes the out-of-range value 193 to the physical
write, and a subsequent fade toward 0 leaves the stored duty at -1. -/
theorem duty_range_violation_bug :
    (fadeToBrightness 0 LED_PWM_DUTY 20).2 = 193
    ∧ ¬((fadeToBrightness 0 LED_PWM_DUTY 20).2 ≤ LED_PWM_DUTY)
    ∧ (193 : Int) ∈ (fadeToBrightness 193 LED_PWM_DUTY 20).1
    ∧ (fadeToBrightness 193 LED_PWM_DUTY 20).1 = [193, 192]
    ∧ (fadeToBrightness 193 0 20).2 = -1 := by
  have e1 : fadeToBrightness 0 LED_PWM_DUTY 20 = fadeUpLoop 0 192 := by
    norm_num [fadeToBrightness, LED_PWM_DUTY]
  have e2 : fadeToBrightness 193 LED_PWM_DUTY 20 = fadeDownLoop 193 192 := by
    norm_num [fadeToBrightness, LED_PWM_DUTY]
  have e3 : fadeDownLoop 193 192 = ([193, 192], 191) := by
    rw [fadeDownLoop_of_ge 193 192 (by norm_num)]
    decide
  have e4 : fadeToBrightness 193 0 20 = fadeDownLoop 193 0 := by
    norm_num [fadeToBrightness]
  rw [e1, fadeUpLoop_of_le 0 192 (by norm_num), e2, e3, e4,
    fadeDownLoop_of_ge 193 0 (by norm_num)]
  decide

/-- C4 counterexample: on the edge sequence 300 ms, 450 ms, 650 ms the
code accepts only the first edge (final `led_override = true`), while the
semantics stated by the claim (acceptance measured from the last accepted
edge, 200 ms or more registers) accepts the edges at 300 and 650 (final
flag `false`).  The code stores the timestamp of every edge, accepted or
not (after 300, 450 it holds 450, not 300), and rejects the edge at 650
although it lies 350 ms after the last accepted edge; it also rejects an
edge exactly 200 ms after the previous one because its test is strict. -/
theorem debounce_last_edge_counterexample :
    (runPresses initState [300, 450, 650]).led_override = true
    ∧ (runPresses initState [300, 450]).last_interrupt_time = 450
    ∧ (runPresses initState [300, 450, 650]).led_override
        = (runPresses initState [300, 450]).led_override
    ∧ (claimDebounceRun (false, 0) [300, 450, 650]).1 = false := by
  refine ⟨?_, ?_, ?_, ?_⟩ <;> decide

/-- C4 amended: the debounce reference is the timestamp of the previous
edge, accepted or rejected, updated on every edge; an edge strictly more
than 200 ms after the previous edge toggles `led_override`, otherwise the
flag is unchanged.  Consequently, from the initial state, two edges whose
gap is at most 200 ms collapse into a single accepted toggle, and two
edges whose gap exceeds 200 ms each toggle. -/
theorem debounce_amended :
    (∀ (s : SysState) (t : Nat), s.last_interrupt_time ≤ t → t < U32 →
      (handleButtonPress s t).last_interrupt_time = t
      ∧ (handleButtonPress s t).led_override
          = (if 200 < t - s.last_interrupt_time then !s.led_override
             else s.led_override)
      ∧ (handleButtonPress s t).led_state = s.led_state
      ∧ (handleButtonPress s t).current_pwm_duty = s.current_pwm_duty)
    ∧ (∀ t1 t2 : Nat, 200 < t1 → t1 ≤ t2 → t2 < U32 → t2 - t1 ≤ 200 →
        (runPresses initState [t1, t2]).led_override = true)
    ∧ (∀ t1 t2 : Nat, 200 < t1 → t1 ≤ t2 → t2 < U32 → 200 < t2 - t1 →
        (runPresses initState [t1, t2]).led_override = false) := by
  have first : ∀ t1 : Nat, 200 < t1 → t1 < U32 →
      handleButtonPress initState t1 =
        { led_override := true, led_state := false, current_pwm_duty := 0,
          sunrise_time := 0, sunset_time := 0, time_initialized := false,
          last_interrupt_time := t1 } := by
    intro t1 ht1 ht1b
    have ht1c : t1 < 4294967296 := ht1b
    simp only [handleButtonPress, initState, U32]
    rw [if_pos (by omega)]
    simp
  refine ⟨?_, ?_, ?_⟩
  · intro s t h1 h2
    have h2b : t < 4294967296 := h2
    simp only [handleButtonPress, U32]
    have hd : (t + 4294967296 - s.last_interrupt_time) % 4294967296
        = t - s.last_interrupt_time := by omega
    simp only [hd]
    split_ifs with hc <;> simp
  · intro t1 t2 ht1 ht12 ht2 hgap
    have ht2b : t2 < 4294967296 := ht2
    show (handleButtonPress (handleButtonPress initState t1) t2).led_override = true
    rw [first t1 ht1 (by omega)]
    simp only [handleButtonPress, U32]
    rw [if_neg (by omega)]
  · intro t1 t2 ht1 ht12 ht2 hgap
    have ht2b : t2 < 4294967296 := ht2
    show (handleButtonPress (handleButtonPress initState t1) t2).led_override = false
    rw [first t1 ht1 (by omega)]
    simp only [handleButtonPress, U32]
    rw [if_pos (by omega)]
    rfl

/-- Witness for C4 amended at concrete edges: a single edge at 300 ms
from the initial state updates the stored timestamp, and the pair of
edges 300 ms, 450 ms (gap 150 ms) collapses into one accepted toggle. -/
theorem debounce_amended_witness :
    (handleButtonPress initState 300).last_interrupt_time = 300
    ∧ (runPresses initState [300, 450]).led_override = true :=
  ⟨(debounce_amended.1 initState 300 (by decide) (by decide)).1,
   debounce_amended.2.1 300 450 (by decide) (by decide) (by decide) (by decide)⟩

/-- With both solar instants still zero, `isDark` is constantly true
(the interval [0, 0) is empty). -/
theorem isDark_zero_zero (tnow : Int) : isDark tnow 0 0 = true := by
  simp only [isDark]
  split_ifs with hc
  · omega
  · rfl

/-- One iteration from a state of the initial AwaitingTime prefix with a
pre-2020 year: the override block does nothing (isDark is constantly
true on the zero instants and led_state is 0), the gate returns early,
the state is unchanged and the trace is idle. -/
theorem loopStep_awaiting (s : SysState) (inp : TimeInput)
    (hs : AwaitingStart s) (hy : inp.year < 2020) :
    loopStep s inp = (s, idleTrace) := by
  obtain ⟨h1, h2, h3, h4⟩ := hs
  simp [loopStep, h1, h2, h3, h4, hy, isDark_zero_zero, idleTrace]

/-- C5: in every loop iteration of the initial AwaitingTime prefix (the
solar instants still hold their zero initialisers, no override latch,
gate flag false) in which the time source still reports a year before
2020, no sunrise/sunset computation is performed, no output write is
issued, the state (hence the output duty) is unchanged, and the
iteration only delays 1000 ms and retries; this holds for any number of
such iterations and regardless of the value of `led_override`. -/
theorem awaitingTime_idle (s : SysState) (inputs : List TimeInput)
    (hs : AwaitingStart s) (hy : ∀ i ∈ inputs, i.year < 2020) :
    (runLoop s inputs).1 = s
    ∧ ∀ tr ∈ (runLoop s inputs).2, tr = idleTrace := by
  induction inputs with
  | nil =>
    exact ⟨rfl, by intro tr htr; simp [runLoop] at htr⟩
  | cons i rest ih =>
    have hstep := loopStep_awaiting s i hs (hy i (List.mem_cons_self i rest))
    have hrest := ih (fun j hj => hy j (List.mem_cons_of_mem i hj))
    constructor
    · show (runLoop s (i :: rest)).1 = s
      simp only [runLoop, hstep]
      exact hrest.1
    · intro tr htr
      simp only [runLoop, hstep] at htr
      rcases List.mem_cons.mp htr with h | h
      · exact h
      · exact hrest.2 tr h

/-- Witness for C5: from the initial state with the override flag
latched on, one iteration whose clock still reports 1970 leaves the
state unchanged. -/
theorem awaitingTime_idle_witness :
    (runLoop { initState with led_override := true } [regressInput]).1
      = { initState with led_override := true } :=
  (awaitingTime_idle { initState with led_override := true } [regressInput]
    ⟨rfl, rfl, rfl, rfl⟩
    (by intro i hi; rw [List.mem_singleton] at hi; subst hi; decide)).1

/-- C6 fails on the code: `time_initialized` is declared (line 193) and
tested (line 197) but never assigned, so the AwaitingTime-to-Running
transition is not latched.  After a first successful tick (year 2024,
`calcSunriseSunset` runs, 60 s delay), an iteration whose clock reports
1970 again falls back into the waiting branch: no recomputation, no
output command, 1 s delay — contradicting the claim that Running is
terminal and that every subsequent iteration recomputes and commands the
output even if the year regresses below 2020.  The last conjunct shows
the root cause: no iteration ever changes `time_initialized`. -/
theorem time_gate_regression_bug :
    (runLoop initState [syncInput, regressInput]).2.map IterTrace.calcRan
      = [true, false]
    ∧ (runLoop initState [syncInput, regressInput]).2.map IterTrace.delayMs
      = [60000, 1000]
    ∧ (runLoop initState [syncInput, regressInput]).2.map IterTrace.autoWrites
      = [some [], none]
    ∧ (runLoop initState [syncInput, regressInput]).1.time_initialized = false
    ∧ ∀ (s : SysState) (inp : TimeInput),
        (loopStep s inp).1.time_initialized = s.time_initialized := by
  refine ⟨by decide, by decide, by decide, by decide, ?_⟩
  intro s inp
  simp only [loopStep]
  split_ifs <;> rfl

/-- C7 fails on the code: `calcSunriseSunset` applies no finiteness or
range check to the library results and no always-dark or always-light
fallback exists anywhere.  A finite out-of-range sunset of 2000 minutes
propagates through the truncating field conversion and the mktime field
normalisation into a sunset instant 120000 s after local midnight (33:20,
beyond the end of the day); `isDark` then classifies instants of the
current day both as dark and as light (so the result is not a constant
fallback classification) and even classifies 01:00 of the following day
as daylight.  A negative sunrise of -90 minutes yields an instant before
local midnight.  (A NaN library result, the other degenerate case named
by the spec, is undefined behaviour at the C double-to-int conversion
and is outside this embedding.) -/
theorem calc_out_of_range_propagates :
    (calcSunriseSunset badSunsetInput).1 = 19860
    ∧ (calcSunriseSunset badSunsetInput).2 = 120000
    ∧ 86400 ≤ (calcSunriseSunset badSunsetInput).2
    ∧ isDark 5000 (calcSunriseSunset badSunsetInput).1
        (calcSunriseSunset badSunsetInput).2 = true
    ∧ isDark 43200 (calcSunriseSunset badSunsetInput).1
        (calcSunriseSunset badSunsetInput).2 = false
    ∧ isDark 90000 (calcSunriseSunset badSunsetInput).1
        (calcSunriseSunset badSunsetInput).2 = false
    ∧ (calcSunriseSunset negSunriseInput).1 = -5400
    ∧ (calcSunriseSunset negSunriseInput).1 < 0 := by
  refine ⟨by decide, by decide, by decide, by decide, by decide, by decide,
    by decide, by decide⟩

/-- C9 counterexample: the interrupt handler is not the only writer of
the override fields.  In a Running-phase daytime iteration with the
override flag latched and `led_state = 0`, the main loop itself (the
override block, lines 181-184) writes `led_state`, a context other than
the handler. -/
theorem led_state_written_by_loop :
    runningDayState.led_state = false
    ∧ (loopStep runningDayState noonInput).1.led_state = true :=
  ⟨rfl, rfl⟩

/-- C9 amended: the interrupt handler is the only writer of
`led_override` — no loop iteration ever changes it — and the handler
writes nothing except `led_override` and its own debounce timestamp: it
never touches `led_state`, never changes the stored duty, the solar
instants or the gate flag, and issues no output write (its embedding
returns no write list at all).  `led_state`, however, is written by the
main loop override block, not by the handler. -/
theorem override_writer_amended :
    (∀ (s : SysState) (t : Nat),
      (handleButtonPress s t).led_state = s.led_state
      ∧ (handleButtonPress s t).current_pwm_duty = s.current_pwm_duty
      ∧ (handleButtonPress s t).sunrise_time = s.sunrise_time
      ∧ (handleButtonPress s t).sunset_time = s.sunset_time
      ∧ (handleButtonPress s t).time_initialized = s.time_initialized)
    ∧ (∀ (s : SysState) (inp : TimeInput),
      (loopStep s inp).1.led_override = s.led_override
      ∧ (loopStep s inp).1.last_interrupt_time = s.last_interrupt_time) := by
  constructor
  · intro s t
    simp only [handleButtonPress]
    split_ifs <;> simp
  · intro s inp
    simp only [loopStep]
    split_ifs <;> exact ⟨rfl, rfl⟩

/-- C10 counterexample: with `led_override` true at the start of an
iteration, the claim asserts the automatic day/night fade still executes
later in the same iteration.  In an iteration whose clock regressed
below 2020 (reachable because `time_initialized` is never latched), the
override block runs — it flips `led_state` from 1 to 0 — but the
iteration then returns at the NTP gate: no recomputation, no automatic
fade, only the 1-second delay. -/
theorem override_block_no_auto_fade :
    overrideOnState.led_override = true
    ∧ overrideOnState.led_state = true
    ∧ (loopStep overrideOnState regressNightInput).1.led_state = false
    ∧ (loopStep overrideOnState regressNightInput).2.autoWrites = none
    ∧ (loopStep overrideOnState regressNightInput).2.calcRan = false
    ∧ (loopStep overrideOnState regressNightInput).2.delayMs = 1000 :=
  ⟨rfl, rfl, rfl, rfl, rfl, rfl⟩

/-- C10 amended: whenever `led_override` is true at the start of an
iteration, the override block runs before the NTP gate with polarity
opposite to the automatic decision — if `isDark` is false and
`led_state` is 0 it issues the fade toward `LED_PWM_DUTY` and sets
`led_state` to 1; if `isDark` is true and `led_state` is 1 it issues the
fade toward 0 and clears `led_state` — and, provided the iteration
passes the NTP-time gate (year at least 2020), the solar recomputation
and the automatic day/night fade still execute later in the same
iteration regardless of the override. -/
theorem override_block_amended (s : SysState) (inp : TimeInput)
    (hov : s.led_override = true) (hgate : 2020 ≤ inp.year) :
    (isDark inp.tnow s.sunrise_time s.sunset_time = false →
      s.led_state = false →
      (loopStep s inp).2.overrideWrites
          = (fadeToBrightness s.current_pwm_duty LED_PWM_DUTY 20).1
      ∧ (loopStep s inp).1.led_state = true)
    ∧ (isDark inp.tnow s.sunrise_time s.sunset_time = true →
      s.led_state = true →
      (loopStep s inp).2.overrideWrites
          = (fadeToBrightness s.current_pwm_duty 0 20).1
      ∧ (loopStep s inp).1.led_state = false)
    ∧ (loopStep s inp).2.calcRan = true
    ∧ (loopStep s inp).2.autoWrites.isSome = true := by
  have hg : ¬(s.time_initialized = false ∧ inp.year < 2020) := by
    rintro ⟨-, h2⟩
    omega
  refine ⟨?_, ?_, ?_, ?_⟩
  · intro hd hl
    constructor <;> simp [loopStep, hov, hd, hl, hg]
  · intro hd hl
    constructor <;> simp [loopStep, hov, hd, hl, hg]
  · by_cases hd : isDark inp.tnow s.sunrise_time s.sunset_time
      <;> by_cases hl : s.led_state
      <;> simp [loopStep, hov, hd, hl, hg]
  · by_cases hd : isDark inp.tnow s.sunrise_time s.sunset_time
      <;> by_cases hl : s.led_state
      <;> simp [loopStep, hov, hd, hl, hg]

/-- Witness for C10 amended: a dark 2024 iteration from the latched
Running-phase state runs the override block (clearing `led_state`) and
still performs the solar recomputation in the same iteration. -/
theorem override_block_amended_witness :
    (loopStep overrideOnState nightInput).2.calcRan = true
    ∧ (loopStep overrideOnState nightInput).1.led_state = false := by
  have h := override_block_amended overrideOnState nightInput rfl (by decide)
  exact ⟨h.2.2.1, (h.2.1 (by decide) rfl).2⟩
